import Mathlib

/-!
# Verification of the GenAI Wealth Advisor advisory-computation pipeline

A shallow embedding, in Lean 4, of the core computations of
`src/genai_wealth_advisor.py`:

* `get_portfolio_allocation` — the risk-tier → asset-allocation lookup
  (the Python function returns a `dict`, embedded here as an association
  list in insertion order);
* `calculate_sip` — the SIP annuity solver (Python `float` arithmetic is
  idealised as exact rationals; the lone run-time failure of the Python
  body, `ZeroDivisionError` when the denominator is zero, is embedded as
  `none`);
* `fetch_cagr` — the CAGR estimator over a fetched price series (the
  downloaded frame is a value of `PriceData`; the numpy-`float64`
  arithmetic on the degenerate inputs — division by zero, fractional
  power of a negative base — is embedded exactly by the `FloatVal` type
  with `inf` / `negInf` / `nan` outcomes);
* `explain_portfolio` — the extraction of the completion text from the
  collaborator's JSON response (`response_json["choices"][0]["message"]["content"]`;
  an uncaught `KeyError`/`IndexError`/`TypeError` is embedded as `none`);
* `generate_pdf` — the report renderer, embedded as the list of drawing
  commands issued to the PDF sink, in order, with the exact strings the
  Python f-strings build (number formatting abstracted by `toString`).

Rounding: Python's `round(x, 2)` rounds half-to-even; `round2` below is
that rule over exact rationals.
-/

/-- Round a rational to the nearest integer, ties to even
(the rule of Python's built-in `round`). -/
def round_half_even (x : ℚ) : ℤ :=
  let f := ⌊x⌋
  let r := x - f
  if r < 1/2 then f
  else if 1/2 < r then f + 1
  else if f % 2 = 0 then f else f + 1

/-- `round(x, 2)` over exact rationals: round `x` to 2 decimal places,
ties to even. -/
def round2 (x : ℚ) : ℚ := (round_half_even (x * 100) : ℚ) / 100

/-- Embedding of `get_portfolio_allocation` (src/genai_wealth_advisor.py,
lines 29–35).  The Python `dict` literals are embedded as association
lists in insertion order.  Note the `else` branch: any value other than
`"Low"` and `"Medium"` — including values outside the three-tier enum —
receives the High allocation. -/
def get_portfolio_allocation (risk : String) : List (String × ℕ) :=
  if risk = "Low" then [("Equity", 30), ("Debt", 60), ("Gold", 10)]
  else if risk = "Medium" then [("Equity", 50), ("Debt", 40), ("Gold", 10)]
  else [("Equity", 70), ("Debt", 20), ("Gold", 10)]

/-- The asset classes (keys) of an allocation, in order. -/
def allocAssets (a : List (String × ℕ)) : List String := a.map Prod.fst

/-- The sum of the percentages of an allocation. -/
def allocSum (a : List (String × ℕ)) : ℕ := (a.map Prod.snd).sum

/-- Embedding of `calculate_sip` (src/genai_wealth_advisor.py, lines
55–59).  `monthly_rate = annual_return/100/12`, `months = years*12`,
`sip = goal_amount * monthly_rate / ((1+monthly_rate)**months - 1)`,
rounded to 2 decimals.  The Python body performs the division unguarded
and raises `ZeroDivisionError` exactly when the denominator is zero;
that raise is embedded as `none`. -/
def calculate_sip (goal_amount : ℚ) (years : ℕ) (annual_return : ℚ) : Option ℚ :=
  let monthly_rate := (annual_return / 100) / 12
  let months := years * 12
  let denom := (1 + monthly_rate) ^ months - 1
  if denom = 0 then none
  else some (round2 (goal_amount * monthly_rate / denom))

/-- C1: for each of the three risk tiers, `get_portfolio_allocation`
returns exactly the fixed lookup-table row (Low → 30/60/10, Medium →
50/40/10, High → 70/20/10), with exactly the three asset classes
Equity, Debt, Gold, and percentages summing to 100. -/
theorem get_portfolio_allocation_table :
    get_portfolio_allocation "Low" = [("Equity", 30), ("Debt", 60), ("Gold", 10)] ∧
    get_portfolio_allocation "Medium" = [("Equity", 50), ("Debt", 40), ("Gold", 10)] ∧
    get_portfolio_allocation "High" = [("Equity", 70), ("Debt", 20), ("Gold", 10)] ∧
    allocAssets (get_portfolio_allocation "Low") = ["Equity", "Debt", "Gold"] ∧
    allocAssets (get_portfolio_allocation "Medium") = ["Equity", "Debt", "Gold"] ∧
    allocAssets (get_portfolio_allocation "High") = ["Equity", "Debt", "Gold"] ∧
    allocSum (get_portfolio_allocation "Low") = 100 ∧
    allocSum (get_portfolio_allocation "Medium") = 100 ∧
    allocSum (get_portfolio_allocation "High") = 100 := by
  decide

/-- C10: `get_portfolio_allocation` is total: every input that is neither
`"Low"` nor `"Medium"` — including values outside the three-tier enum —
silently receives the High allocation, and every possible call returns a
three-class mapping summing to 100. -/
theorem get_portfolio_allocation_total (risk : String)
    (h1 : risk ≠ "Low") (h2 : risk ≠ "Medium") :
    get_portfolio_allocation risk = [("Equity", 70), ("Debt", 20), ("Gold", 10)] ∧
    ∀ r : String, allocAssets (get_portfolio_allocation r) = ["Equity", "Debt", "Gold"] ∧
      allocSum (get_portfolio_allocation r) = 100 := by
  constructor
  · simp [get_portfolio_allocation, h1, h2]
  · intro r
    unfold get_portfolio_allocation
    split <;> [skip; split] <;> exact ⟨rfl, rfl⟩

/-- Witness for C10 at the out-of-enum input `"Aggressive"`. -/
theorem get_portfolio_allocation_total_witness :
    get_portfolio_allocation "Aggressive" = [("Equity", 70), ("Debt", 20), ("Gold", 10)] ∧
    ∀ r : String, allocAssets (get_portfolio_allocation r) = ["Equity", "Debt", "Gold"] ∧
      allocSum (get_portfolio_allocation r) = 100 :=
  get_portfolio_allocation_total "Aggressive" (by decide) (by decide)

/-- C4 counterexample: at the out-of-enum input `"Banana"` the function
does not fail with `InvalidArgument` — the Python body has no input
check at all — but returns the (well-formed) High allocation. -/
theorem get_portfolio_allocation_no_invalid_argument :
    get_portfolio_allocation "Banana" = [("Equity", 70), ("Debt", 20), ("Gold", 10)] ∧
    allocAssets (get_portfolio_allocation "Banana") = ["Equity", "Debt", "Gold"] ∧
    allocSum (get_portfolio_allocation "Banana") = 100 := by
  decide

/-- C4 amended: for every input outside the enum {Low, Medium, High},
`get_portfolio_allocation` does not fail; it silently returns the High
allocation. -/
theorem get_portfolio_allocation_out_of_enum (risk : String)
    (h : risk ∉ ["Low", "Medium", "High"]) :
    get_portfolio_allocation risk = [("Equity", 70), ("Debt", 20), ("Gold", 10)] := by
  simp only [List.mem_cons, List.mem_singleton, not_or] at h
  simp [get_portfolio_allocation, h.1, h.2.1]

/-- Witness for the amended C4 at the out-of-enum input `"Yolo"`. -/
theorem get_portfolio_allocation_out_of_enum_witness :
    get_portfolio_allocation "Yolo" = [("Equity", 70), ("Debt", 20), ("Gold", 10)] :=
  get_portfolio_allocation_out_of_enum "Yolo" (by decide)

/-- C2: for positive goal, positive integer horizon and positive monthly
rate, `calculate_sip` returns exactly the future-value-of-annuity
inversion `goal * r / ((1+r)^months - 1)` with `r = annual_return/100/12`
and `months = years*12`, rounded to 2 decimal places. -/
theorem calculate_sip_annuity_formula (goal_amount : ℚ) (years : ℕ) (annual_return : ℚ)
    (hg : 0 < goal_amount) (hy : 0 < years) (hr : 0 < annual_return / 100 / 12) :
    calculate_sip goal_amount years annual_return =
      some (round2 (goal_amount * (annual_return / 100 / 12) /
        ((1 + annual_return / 100 / 12) ^ (years * 12) - 1))) := by
  have h1 : (1:ℚ) < 1 + annual_return / 100 / 12 := by linarith
  have h2 : (1:ℚ) < (1 + annual_return / 100 / 12) ^ (years * 12) :=
    one_lt_pow₀ h1 (by omega)
  simp only [calculate_sip]
  rw [if_neg (by intro h; nlinarith)]

/-- Witness for C2 at `solve(1_000_000, 10, 12.0)`, pinning the
closed-form regression value 4347.09. -/
theorem calculate_sip_annuity_formula_witness :
    calculate_sip 1000000 10 12 =
      some (round2 (1000000 * ((12:ℚ) / 100 / 12) /
        ((1 + (12:ℚ) / 100 / 12) ^ (10 * 12) - 1))) ∧
    calculate_sip 1000000 10 12 = some (434709/100) := by
  constructor
  · exact calculate_sip_annuity_formula 1000000 10 12 (by norm_num) (by norm_num) (by norm_num)
  · norm_num [calculate_sip, round2, round_half_even]

/-- C3 counterexample: a negative rate is not rejected.
`calculate_sip(1000000, 10, -5)` returns the numeric result 10572.54
(monthly_rate = -1/240 < 0), so the solver does not fail with
`DegenerateRate` whenever the monthly rate is ≤ 0. -/
theorem calculate_sip_negative_rate_returns_value :
    calculate_sip 1000000 10 (-5) = some (528627/50) := by
  norm_num [calculate_sip, round2, round_half_even]

/-- C3 amended: at `annual_return = 0` the denominator
`(1+0)^months - 1` is zero and the Python body fails — with an unhandled
`ZeroDivisionError`, not a dedicated `DegenerateRate` error — while a
strictly negative rate is not rejected at all and yields a numeric
result (see the counterexample). -/
theorem calculate_sip_zero_rate_fails (goal_amount : ℚ) (years : ℕ) :
    calculate_sip goal_amount years 0 = none := by
  simp [calculate_sip]

/-- Outcome of one step of the numpy `float64` arithmetic performed by
`fetch_cagr` on the degenerate inputs the spec discusses: a finite real
value, or the IEEE-754 special values `inf`, `-inf`, `nan` (numpy emits
these, with a warning, instead of raising). -/
inductive FloatVal where
  | finite (x : ℝ)
  | inf
  | negInf
  | nan

/-- `e / s` under numpy `float64` semantics: finite quotient when
`s ≠ 0`; `±inf` for a nonzero numerator over zero; `nan` for `0/0`. -/
noncomputable def float_div (e s : ℚ) : FloatVal :=
  if s ≠ 0 then .finite ((e : ℝ) / (s : ℝ))
  else if 0 < e then .inf
  else if e < 0 then .negInf
  else .nan

/-- `v ** p` for a fractional exponent `p ∈ (0, 1)` under numpy
`float64` semantics: a negative finite base (and `-inf`) gives `nan`;
a nonnegative finite base gives the real power; `inf ** p = inf`. -/
noncomputable def float_rpow_frac (v : FloatVal) (p : ℝ) : FloatVal :=
  match v with
  | .finite x => if x < 0 then .nan else .finite (x ^ p)
  | .inf => .inf
  | .negInf => .nan
  | .nan => .nan

/-- `v - 1` mapped over a float outcome. -/
noncomputable def float_sub_one : FloatVal → FloatVal
  | .finite x => .finite (x - 1)
  | v => v

/-- `v * 100` mapped over a float outcome. -/
noncomputable def float_mul_100 : FloatVal → FloatVal
  | .finite x => .finite (x * 100)
  | v => v

/-- Round-half-to-even for real values (the rule of Python's `round`). -/
noncomputable def round_half_even_real (x : ℝ) : ℤ :=
  let f := ⌊x⌋
  let r := x - f
  if r < 1/2 then f
  else if 1/2 < r then f + 1
  else if f % 2 = 0 then f else f + 1

/-- `round(x, 2)` for real values, ties to even. -/
noncomputable def round2_real (x : ℝ) : ℝ := (round_half_even_real (x * 100) : ℝ) / 100

/-- `round(v, 2)` mapped over a float outcome (Python's `round(inf, 2)`
is `inf` and `round(nan, 2)` is `nan`). -/
noncomputable def float_round2 : FloatVal → FloatVal
  | .finite x => .finite (round2_real x)
  | v => v

/-- The frame `yf.download` returns, as `fetch_cagr` observes it:
whether the `"Adj Close"` column is present, and that column's values in
chronological order (the frame is empty iff the column list is). -/
structure PriceData where
  hasAdjClose : Bool
  adjClose : List ℚ

/-- Embedding of `fetch_cagr` (src/genai_wealth_advisor.py, lines
62–71).  `None` for an empty frame or a missing `"Adj Close"` column;
otherwise `round((( last / first ) ** (1/years) - 1) * 100, 2)` under the
float semantics above, where `first`/`last` are `iloc[0]`/`iloc[-1]` of
the `"Adj Close"` column. -/
noncomputable def fetch_cagr (data : PriceData) (years : ℕ) : Option FloatVal :=
  match data.adjClose, data.hasAdjClose with
  | [], _ => none
  | _, false => none
  | p :: ps, true =>
    let start_price := p
    let end_price := (p :: ps).getLast (List.cons_ne_nil p ps)
    some (float_round2 (float_mul_100 (float_sub_one
      (float_rpow_frac (float_div end_price start_price) (1 / (years : ℝ))))))

/-- C5 counterexample: on a series whose first closing price is zero
(last price 100), `fetch_cagr` does not return the "unavailable" marker:
it divides by zero under float semantics and returns `inf`. -/
theorem fetch_cagr_zero_start_returns_inf :
    fetch_cagr ⟨true, [0, 100]⟩ 5 = some FloatVal.inf ∧
    fetch_cagr ⟨true, [0, 100]⟩ 5 ≠ none := by
  constructor
  · show some (float_round2 (float_mul_100 (float_sub_one
      (float_rpow_frac (float_div 100 0) (1 / (5 : ℝ)))))) = _
    norm_num [float_div, float_rpow_frac, float_sub_one, float_mul_100, float_round2]
  · intro h
    simp [fetch_cagr, float_div, float_rpow_frac, float_sub_one, float_mul_100,
      float_round2] at h

/-- C5 amended: `fetch_cagr` guards only the empty/missing-column cases.
On a series with positive last closing price, a zero first closing price
propagates to an `inf` result and a negative first closing price to a
`nan` result (fractional power of a negative base); neither yields the
"unavailable" marker `none`. -/
theorem fetch_cagr_degenerate_start (d : PriceData) (p : ℚ) (ps : List ℚ) (years : ℕ)
    (hc : d.hasAdjClose = true) (ha : d.adjClose = p :: ps)
    (hlast : 0 < (p :: ps).getLast (List.cons_ne_nil p ps)) :
    (p = 0 → fetch_cagr d years = some FloatVal.inf) ∧
    (p < 0 → fetch_cagr d years = some FloatVal.nan) := by
  unfold fetch_cagr
  rw [ha, hc]
  constructor
  · intro hp
    subst hp
    have hdiv : float_div ((0 :: ps).getLast (List.cons_ne_nil 0 ps)) 0 = FloatVal.inf := by
      rw [float_div, if_neg (by simp), if_pos hlast]
    simp only [hdiv, float_rpow_frac, float_sub_one, float_mul_100, float_round2]
  · intro hp
    have hdiv : float_div ((p :: ps).getLast (List.cons_ne_nil p ps)) p =
        FloatVal.finite ((((p :: ps).getLast (List.cons_ne_nil p ps) : ℚ) : ℝ) / (p : ℝ)) := by
      rw [float_div, if_pos (by exact_mod_cast ne_of_lt hp)]
    have hneg : ((((p :: ps).getLast (List.cons_ne_nil p ps) : ℚ) : ℝ) / (p : ℝ)) < 0 := by
      apply div_neg_of_pos_of_neg
      · exact_mod_cast hlast
      · exact_mod_cast hp
    simp only [hdiv, float_rpow_frac, if_pos hneg, float_sub_one, float_mul_100, float_round2]

/-- Witness for the amended C5 on the concrete series `[0, 100]`
(→ `inf`) and `[-1, 100]` (→ `nan`). -/
theorem fetch_cagr_degenerate_start_witness :
    fetch_cagr ⟨true, [0, 100]⟩ 5 = some FloatVal.inf ∧
    fetch_cagr ⟨true, [-1, 100]⟩ 5 = some FloatVal.nan :=
  ⟨(fetch_cagr_degenerate_start ⟨true, [0, 100]⟩ 0 [100] 5 rfl rfl
      (by norm_num [List.getLast])).1 rfl,
   (fetch_cagr_degenerate_start ⟨true, [-1, 100]⟩ (-1) [100] 5 rfl rfl
      (by norm_num [List.getLast])).2 (by norm_num)⟩

/-- C6 counterexample: for an empty series and for a nonempty frame
lacking the `"Adj Close"` column, `fetch_cagr` returns the bare marker
`none` in both cases — the two failure causes produce identical results,
so no diagnostic reason (`NoData` vs `MissingField`) is carried. -/
theorem fetch_cagr_unavailable_carries_no_reason :
    fetch_cagr ⟨true, []⟩ 5 = none ∧
    fetch_cagr ⟨false, [5, 6]⟩ 5 = none ∧
    fetch_cagr ⟨true, []⟩ 5 = fetch_cagr ⟨false, [5, 6]⟩ 5 :=
  ⟨rfl, rfl, rfl⟩

/-- C6 amended: whenever the fetched frame is empty or lacks the
`"Adj Close"` column, `fetch_cagr` returns the bare "unavailable" marker
`none` — it never raises, but carries no diagnostic reason. -/
theorem fetch_cagr_empty_or_missing_returns_none (d : PriceData) (years : ℕ)
    (h : d.adjClose = [] ∨ d.hasAdjClose = false) :
    fetch_cagr d years = none := by
  unfold fetch_cagr
  rcases h with h | h
  · rw [h]; rcases d.hasAdjClose with _ | _ <;> rfl
  · rw [h]
    rcases d.adjClose with _ | ⟨p, ps⟩ <;> rfl

/-- Witness for the amended C6 on a nonempty frame without the
`"Adj Close"` column. -/
theorem fetch_cagr_empty_or_missing_returns_none_witness :
    fetch_cagr ⟨false, [3]⟩ 5 = none :=
  fetch_cagr_empty_or_missing_returns_none ⟨false, [3]⟩ 5 (Or.inr rfl)

/-- C7 counterexample: a series with a valid positive first closing
price (1) but a negative last closing price (−32) does not produce the
claimed percentage value: the fractional power of the negative ratio is
`nan`, which is not `finite` of anything. -/
theorem fetch_cagr_negative_end_not_formula :
    fetch_cagr ⟨true, [1, -32]⟩ 5 = some FloatVal.nan ∧
    some FloatVal.nan ≠ some (FloatVal.finite (round2_real
      (((((-32 : ℚ) : ℝ) / ((1 : ℚ) : ℝ)) ^ (1 / (5 : ℝ)) - 1) * 100))) := by
  constructor
  · show some (float_round2 (float_mul_100 (float_sub_one
      (float_rpow_frac (float_div (-32) 1) (1 / (5 : ℝ)))))) = _
    norm_num [float_div, float_rpow_frac, float_sub_one, float_mul_100, float_round2]
  · simp

/-- C7 amended: on a non-empty series with `"Adj Close"` present,
positive first closing price and nonnegative last closing price,
`fetch_cagr` returns `round(((last/first)^(1/years) − 1) · 100, 2)`
as a finite value. -/
theorem fetch_cagr_formula (d : PriceData) (p : ℚ) (ps : List ℚ) (years : ℕ)
    (hc : d.hasAdjClose = true) (ha : d.adjClose = p :: ps)
    (hp : 0 < p) (hlast : 0 ≤ (p :: ps).getLast (List.cons_ne_nil p ps)) :
    fetch_cagr d years = some (FloatVal.finite (round2_real
      ((((((p :: ps).getLast (List.cons_ne_nil p ps) : ℚ) : ℝ) / (p : ℝ)) ^
        (1 / (years : ℝ)) - 1) * 100))) := by
  unfold fetch_cagr
  rw [ha, hc]
  have hdiv : float_div ((p :: ps).getLast (List.cons_ne_nil p ps)) p =
      FloatVal.finite ((((p :: ps).getLast (List.cons_ne_nil p ps) : ℚ) : ℝ) / (p : ℝ)) := by
    rw [float_div, if_pos (by exact_mod_cast ne_of_gt hp)]
  have hnn : (0:ℝ) ≤ (((p :: ps).getLast (List.cons_ne_nil p ps) : ℚ) : ℝ) / (p : ℝ) := by
    apply div_nonneg
    · exact_mod_cast hlast
    · exact_mod_cast le_of_lt hp
  simp only [hdiv, float_rpow_frac, if_neg (not_lt.mpr hnn), float_sub_one, float_mul_100,
    float_round2]

/-- Witness for the amended C7 on the series `[1, 32]` over 5 years:
the CAGR is `(32/1)^(1/5) − 1 = 100%`, and the result evaluates to the
finite value 100. -/
theorem fetch_cagr_formula_witness :
    fetch_cagr ⟨true, [1, 32]⟩ 5 = some (FloatVal.finite (round2_real
      (((((((1:ℚ) :: [32]).getLast (List.cons_ne_nil 1 [32]) : ℚ) : ℝ) / ((1 : ℚ) : ℝ)) ^
        (1 / ((5 : ℕ) : ℝ)) - 1) * 100))) ∧
    fetch_cagr ⟨true, [1, 32]⟩ 5 = some (FloatVal.finite 100) := by
  have h := fetch_cagr_formula ⟨true, [1, 32]⟩ 1 [32] 5 rfl rfl (by norm_num)
    (by norm_num [List.getLast])
  refine ⟨h, ?_⟩
  rw [h]
  have hg : ((((1:ℚ) :: [32]).getLast (List.cons_ne_nil 1 [32]) : ℚ) : ℝ) = ((32:ℚ):ℝ) := by
    norm_num [List.getLast]
  have h32 : (((((1:ℚ) :: [32]).getLast (List.cons_ne_nil 1 [32]) : ℚ) : ℝ) / ((1 : ℚ) : ℝ)) ^
      (1 / ((5 : ℕ) : ℝ)) = (2:ℝ) := by
    rw [hg]
    have he : (((32 : ℚ) : ℝ) / ((1 : ℚ) : ℝ)) = (2:ℝ) ^ (5:ℕ) := by norm_num
    rw [he, ← Real.rpow_natCast 2 5, ← Real.rpow_mul (by norm_num)]
    norm_num
  rw [h32]
  have h100 : round2_real ((2 - 1) * 100) = 100 := by
    unfold round2_real round_half_even_real
    norm_num
  rw [h100]

/-- A JSON value, as the collaborator's response body is parsed by
`response.json()`.  Subscripting a `dict` with a missing key, a
non-object with a key, or an array out of range raises
(`KeyError`/`TypeError`/`IndexError`); those raises are embedded as
`none` below. -/
inductive Json where
  | null
  | str (s : String)
  | num (q : ℚ)
  | bool (b : Bool)
  | arr (elems : List Json)
  | obj (fields : List (String × Json))

/-- `j[k]` for a string key: the field's value when `j` is an object
holding `k`, otherwise the raise (`none`). -/
def Json.getKey : Json → String → Option Json
  | .obj fields, k => fields.lookup k
  | _, _ => none

/-- `j[i]` for an index: element `i` when `j` is an array long enough,
otherwise the raise (`none`). -/
def Json.getIdx : Json → ℕ → Option Json
  | .arr elems, i => elems.get? i
  | _, _ => none

/-- Embedding of the response handling of `explain_portfolio`
(src/genai_wealth_advisor.py, lines 50–52):
`response_json["choices"][0]["message"]["content"]`, performed on the
collaborator's response with no check whatsoever; the HTTP exchange
itself is the external text-completion collaborator, so the embedded
function maps the received response body to the returned completion.
`none` is the uncaught exception escaping the function. -/
def explain_portfolio (response_json : Json) : Option Json :=
  ((response_json.getKey "choices").bind (fun c => c.getIdx 0)).bind
    (fun c0 => (c0.getKey "message").bind (fun m => m.getKey "content"))

/-- What a completed "Generate Portfolio" run delivers: the allocation,
the narrative, and the SIP figure. -/
structure PipelineOutput where
  allocation : List (String × ℕ)
  explanation : Json
  sip : ℚ

/-- Embedding of the "Generate Portfolio" script flow
(src/genai_wealth_advisor.py, lines 114–135), in source order: the
allocation is computed first, then `explain_portfolio` is called, then
`calculate_sip`.  An exception at any step aborts the whole run
(`none`): Streamlit reruns the script top-down and no local survives. -/
def generate_portfolio_flow (risk : String) (response_json : Json)
    (goal_amount : ℚ) (goal_years : ℕ) (expected_return : ℚ) : Option PipelineOutput :=
  let allocation := get_portfolio_allocation risk
  match explain_portfolio response_json with
  | none => none
  | some explanation =>
    match calculate_sip goal_amount goal_years expected_return with
    | none => none
    | some sip => some ⟨allocation, explanation, sip⟩

/-- C8 counterexample: a response body without the expected `"choices"`
field (e.g. an error payload) makes the field lookup raise; the raise is
uncaught, so the whole request aborts — there is no distinct
`MalformedCollaboratorResponse` error kind, and no Allocation/SipResult
survives (the SIP step, which runs after the narrative step, never
executes). -/
theorem explain_portfolio_malformed_aborts_request :
    explain_portfolio (Json.obj [("error", Json.str "bad gateway")]) = none ∧
    generate_portfolio_flow "Low" (Json.obj [("error", Json.str "bad gateway")])
      1000000 10 12 = none := by
  constructor <;> rfl

/-- C8 amended: whenever the completion response lacks the `"choices"`
field, the uncaught lookup error aborts the whole "Generate Portfolio"
run: the pipeline yields no output at all (one indistinct failure, not a
dedicated `MalformedCollaboratorResponse` kind), the previously computed
allocation is discarded with the run, and the SipResult is never
computed. -/
theorem generate_portfolio_flow_malformed_response (risk : String) (resp : Json)
    (goal_amount : ℚ) (goal_years : ℕ) (expected_return : ℚ)
    (h : explain_portfolio resp = none) :
    generate_portfolio_flow risk resp goal_amount goal_years expected_return = none := by
  unfold generate_portfolio_flow
  rw [h]

/-- Witness for the amended C8 on the empty-object response. -/
theorem generate_portfolio_flow_malformed_response_witness :
    generate_portfolio_flow "Medium" (Json.obj []) 500000 5 8 = none :=
  generate_portfolio_flow_malformed_response "Medium" (Json.obj []) 500000 5 8 rfl

/-- One drawing command issued by `generate_pdf` to the report sink
(the FPDF collaborator), with the exact arguments of the call. -/
inductive PdfItem where
  | setFont (family style : String) (size : ℕ)
  | cell (w h : ℕ) (txt : String)
  | ln (h : ℕ)
  | multiCell (w h : ℕ) (txt : String)
deriving DecidableEq

/-- The `sip_info` dict handed to `generate_pdf`:
`{"amount": ..., "years": ..., "sip": ...}`. -/
structure SipInfo where
  amount : ℚ
  years : ℕ
  sip : ℚ
deriving DecidableEq

/-- The text of the goal/horizon/required-contribution block
(src/genai_wealth_advisor.py, line 95), built from the supplied numbers
(number formatting abstracted by `toString`). -/
def sip_block_text (s : SipInfo) : String :=
  "\nGoal: ₹" ++ toString s.amount ++ " in " ++ toString s.years ++
  " years.\nMonthly SIP Needed: ₹" ++ toString s.sip

/-- Embedding of `generate_pdf` (src/genai_wealth_advisor.py, lines
74–97) as the ordered list of drawing commands sent to the report sink.
`sip_info` is optional (Python default `None`); the goal/SIP block is
appended only under `if sip_info:`. -/
def generate_pdf (name : String) (age : ℕ) (income : ℚ) (risk goal : String)
    (allocation : List (String × ℕ)) (explanation : String)
    (sip_info : Option SipInfo) : List PdfItem :=
  [PdfItem.setFont "Arial" "B" 16,
   PdfItem.cell 200 10 "Wealth Advisor Report",
   PdfItem.setFont "Arial" "" 12,
   PdfItem.ln 10,
   PdfItem.cell 200 10 ("Name: " ++ name ++ " | Age: " ++ toString age ++
     " | Income: ₹" ++ toString income),
   PdfItem.cell 200 10 ("Risk Tolerance: " ++ risk ++ " | Goal: " ++ goal),
   PdfItem.ln 10,
   PdfItem.cell 200 10 "Portfolio Allocation:"]
  ++ allocation.map (fun ap => PdfItem.cell 200 10 (ap.1 ++ ": " ++ toString ap.2 ++ "%"))
  ++ [PdfItem.ln 10,
      PdfItem.multiCell 0 10 ("Advisor's Explanation:\n" ++ explanation)]
  ++ (match sip_info with
      | some s => [PdfItem.ln 5, PdfItem.multiCell 0 10 (sip_block_text s)]
      | none => [])

/-- The narrative block's text can never collide with a goal/SIP block's
text: the former starts with `A`, the latter with a newline. -/
theorem narrative_ne_sip_block (e : String) (s : SipInfo) :
    "Advisor's Explanation:\n" ++ e ≠ sip_block_text s := by
  intro h
  have h1 : ("Advisor's Explanation:\n" ++ e).data.head? = some 'A' := rfl
  have h2 : (sip_block_text s).data.head? = some '\n' := by
    show ((("\nGoal: ₹" ++ toString s.amount ++ " in " ++ toString s.years ++
      " years.\nMonthly SIP Needed: ₹" ++ toString s.sip)).data).head? = some '\n'
    rfl
  rw [h, h2] at h1
  exact absurd (Option.some.inj h1) (by decide)

/-- C9: the rendered document with no SipResult contains no goal/SIP
block for any numbers; with a SipResult it is exactly the no-SIP
document followed by one goal/SIP block carrying the very numbers that
were passed in, and that block occurs exactly once. -/
theorem generate_pdf_sip_block_roundtrip (name : String) (age : ℕ) (income : ℚ)
    (risk goal : String) (allocation : List (String × ℕ)) (explanation : String)
    (s : SipInfo) :
    generate_pdf name age income risk goal allocation explanation (some s) =
      generate_pdf name age income risk goal allocation explanation none ++
        [PdfItem.ln 5, PdfItem.multiCell 0 10 (sip_block_text s)] ∧
    (∀ s' : SipInfo,
      (generate_pdf name age income risk goal allocation explanation none).count
        (PdfItem.multiCell 0 10 (sip_block_text s')) = 0) ∧
    (generate_pdf name age income risk goal allocation explanation (some s)).count
      (PdfItem.multiCell 0 10 (sip_block_text s)) = 1 := by
  have hcount0 : ∀ s' : SipInfo,
      (generate_pdf name age income risk goal allocation explanation none).count
        (PdfItem.multiCell 0 10 (sip_block_text s')) = 0 := by
    intro s'
    unfold generate_pdf
    rw [List.count_eq_zero]
    intro hmem
    simp only [List.mem_append, List.mem_cons, List.mem_map, List.not_mem_nil, or_false,
      false_or] at hmem
    rcases hmem with (((h | h | h | h | h | h | h | h) | ⟨ap, hap, h⟩) | (h | h)) <;>
      first
      | exact PdfItem.noConfusion h
      | exact PdfItem.noConfusion h.symm
      | exact narrative_ne_sip_block explanation s' (PdfItem.multiCell.inj h).2.2.symm
  refine ⟨?_, hcount0, ?_⟩
  · unfold generate_pdf
    simp [List.append_assoc]
  · have hsplit : generate_pdf name age income risk goal allocation explanation (some s) =
        generate_pdf name age income risk goal allocation explanation none ++
          [PdfItem.ln 5, PdfItem.multiCell 0 10 (sip_block_text s)] := by
      unfold generate_pdf
      simp [List.append_assoc]
    rw [hsplit, List.count_append, hcount0 s]
    simp [List.count_cons]
